import Mathlib

/-!
Shallow embedding of `src/library/cluster_vm.py` (SEAPATH Ansible module
`cluster_vm`): the request-validation and dispatch logic of `run_module`,
together with the purge-date resolution code of the `purge_image` branch.

External collaborators are modelled as follows.

* The `AnsibleModule` constructor configured at `cluster_vm.py:423` performs
  parameter validation for the `mutually_exclusive` pair
  `("purge_date", "purge_number")` and the `required_if` table; the library
  applies the mutual-exclusion check before the required-if check, and both
  complete before any statement after the constructor runs.
* Because the argument spec declares `purge_date` with the Python builtin
  `dict` as its `type` (not the string literal), the library performs no
  sub-option processing: the user-supplied mapping flows through unchanged,
  so a key is present in `purge_date` exactly when the caller supplied it.
* `datetime.date.fromisoformat` / `datetime.time.fromisoformat` /
  `datetime.datetime.fromisoformat` are modelled on already-parsed component
  records; `datetime.datetime.fromisoformat` retains an explicit UTC offset,
  producing an aware value, while `datetime.datetime.combine` of a date and
  an offset-free time produces a naive value.
* `datetime.datetime.fromtimestamp` interprets its argument as seconds since
  the epoch and renders it as naive local civil time; when the resulting
  year falls outside Python's representable 1..9999 range it raises (the
  year-out-of-range ValueError), which the module's generic `except` wrapper
  turns into a failure exit with no capability call; the environment's fixed
  `tzOffsetMinutes` stands for the local UTC offset.
* The `vm_manager` capability always succeeds; each call is recorded in a
  trace together with the exact arguments the source passes.
-/

/-- A Python civil date, as produced by `datetime.date.fromisoformat`. -/
structure CivilDate where
  year : Int
  month : Int
  day : Int
deriving DecidableEq

/-- A Python time-of-day in the documented `HH:MM` format, as produced by
`datetime.time.fromisoformat`. -/
structure CivilTime where
  hour : Int
  minute : Int
deriving DecidableEq

/-- The components of an ISO-8601 date-time string, as understood by
`datetime.datetime.fromisoformat` (Python >= 3.7): date, time and an
optional explicit UTC offset in minutes. -/
structure Iso8601 where
  year : Int
  month : Int
  day : Int
  hour : Int
  minute : Int
  second : Int
  utcoffsetMinutes : Option Int
deriving DecidableEq

/-- A Python `datetime.datetime` value: wall-clock seconds since
1970-01-01T00:00:00 of its own (naive) frame, plus the attached `tzinfo`
UTC offset in minutes when the value is aware. -/
structure PyDateTime where
  seconds : Int
  utcoffsetMinutes : Option Int
deriving DecidableEq

/-- The user-supplied `purge_date` mapping: each field is `some` exactly when
the corresponding key was supplied by the caller (no sub-option filling
happens, see the module comment). -/
structure PurgeDate where
  date : Option CivilDate
  time : Option CivilTime
  iso_8601 : Option Iso8601
  posix : Option Int
deriving DecidableEq

/-- The module's parameters after `AnsibleModule` argument parsing
(`module_args`, `cluster_vm.py:378-404`).  A field is `none` when the caller
omitted it (or supplied Python `None`); `force`, `enable` and
`clear_constraint` have declared defaults and are therefore always set. -/
structure Request where
  command : String
  name : Option String
  xml : Option String
  data_disk : Option String
  force : Bool
  enable : Bool
  system_image : Option String
  src_name : Option String
  metadata_name : Option String
  snapshot_name : Option String
  metadata : Option (List (String × String))
  purge_date : Option PurgeDate
  purge_number : Option Int
  preferred_host : Option String
  pinned_host : Option String
  clear_constraint : Bool
deriving DecidableEq

/-- The distinct failure exits of `run_module` (each is a `module.fail_json`
call in the source, identified by its message). -/
inductive ModuleError where
  /-- Missing/empty parameter: the message of `check_parameters`
  (`cluster_vm.py:372-376`) and of the constructor's `required_if`
  failures, carrying the field name and the command. -/
  | missingParam (field : String) (command : String)
  /-- The constructor's `mutually_exclusive` failure for
  `("purge_date", "purge_number")` (`cluster_vm.py:427`). -/
  | mutuallyExclusive
  /-- The constructor's `choices` failure for an unknown `command`. -/
  | invalidChoice (command : String)
  /-- `purge_date argument error: date and time must be set together`
  (`cluster_vm.py:517-520`). -/
  | purgeDateIncomplete
  /-- `purge_date argument error: date/time, iso_8601 and posix and mutually
  exclusive` (`cluster_vm.py:527-530`). -/
  | purgeDateAmbiguous
  /-- An exception raised inside the `try` block and caught by the generic
  `except Exception` wrapper (`cluster_vm.py:565-566`); reached in this
  model when `datetime.datetime.fromtimestamp` raises its year-out-of-range
  ValueError. -/
  | valueError
  /-- `system_image doesn't exist or is not a file`
  (`cluster_vm.py:468-470`). -/
  | imageNotFound
  /-- The final `else` branch of the dispatch (`cluster_vm.py:561-564`). -/
  | unsupportedCommand (command : String)
deriving DecidableEq

/-- The spec's MutualExclusionError class (spec section 7): both purge
selectors supplied, or an incomplete / over-specified purge_spec. -/
def ModuleError.isMutualExclusion : ModuleError → Bool
  | .mutuallyExclusive => true
  | .purgeDateIncomplete => true
  | .purgeDateAmbiguous => true
  | _ => false

/-- One recorded call on the external `vm_manager` capability, with exactly
the arguments the source passes at the corresponding call site. -/
inductive CapCall where
  | list_vms
  | create (name : Option String) (xml : Option String)
      (system_image : Option String) (force : Bool) (enable : Bool)
      (metadata : Option (List (String × String)))
      (preferred_host : Option String) (pinned_host : Option String)
  | clone (src_name : Option String) (name : Option String)
      (base_xml : Option String) (force : Bool) (enable : Bool)
      (metadata : Option (List (String × String)))
      (preferred_host : Option String) (pinned_host : Option String)
      (clear_constraint : Bool)
  | remove (name : Option String)
  | start (name : Option String)
  | stop (name : Option String)
  | disable_vm (name : Option String)
  | status (name : Option String)
  | enable_vm (name : Option String)
  | create_snapshot (name : Option String) (snapshot_name : Option String)
  | purge_image (name : Option String) (date : Option PyDateTime)
      (number : Option Int)
  | remove_snapshot (name : Option String) (snapshot_name : Option String)
  | list_snapshots (name : Option String)
  | rollback_snapshot (name : Option String) (snapshot_name : Option String)
  | list_metadata (name : Option String)
  | get_metadata (name : Option String) (metadata_name : Option String)
deriving DecidableEq

/-- The flat output structure passed to `module.exit_json`; each field is
`some` exactly when the dispatch stored the corresponding key in `result`. -/
structure Output where
  list_vms : Option (List String)
  status : Option String
  metadata_value : Option String
  list_metadata : Option (List String)
  list_snapshot : Option (List String)
deriving DecidableEq

/-- The `result = {}` the source starts from (`cluster_vm.py:405`). -/
def emptyOutput : Output :=
  { list_vms := none, status := none, metadata_value := none,
    list_metadata := none, list_snapshot := none }

/-- The ambient world: which paths are existing regular files
(`os.path.isfile`), the local UTC offset used by
`datetime.datetime.fromtimestamp`, and the values the always-succeeding
capability returns. -/
structure Env where
  isFile : String → Bool
  tzOffsetMinutes : Int
  list_vms_ret : List String
  status_ret : String
  metadata_value_ret : String
  list_metadata_ret : List String
  list_snapshots_ret : List String

/-- Days since 1970-01-01 of a proleptic-Gregorian civil date (the arithmetic
underlying Python's `datetime.date.toordinal`, shifted to the Unix epoch). -/
def daysFromCivil (y m d : Int) : Int :=
  let yAdj : Int := if m ≤ 2 then y - 1 else y
  let era : Int := (if 0 ≤ yAdj then yAdj else yAdj - 399) / 400
  let yoe : Int := yAdj - era * 400
  let mp : Int := if 2 < m then m - 3 else m + 9
  let doy : Int := (153 * mp + 2) / 5 + d - 1
  let doe : Int := yoe * 365 + yoe / 4 - yoe / 100 + doy
  era * 146097 + doe - 719468

/-- `datetime.datetime.combine(date.fromisoformat(d), time.fromisoformat(t))`
(`cluster_vm.py:534-537`): a naive date-time from the date and `HH:MM` time. -/
def combineDateTime (d : CivilDate) (t : CivilTime) : PyDateTime :=
  { seconds := 86400 * daysFromCivil d.year d.month d.day
      + 3600 * t.hour + 60 * t.minute,
    utcoffsetMinutes := none }

/-- `datetime.datetime.fromisoformat` (`cluster_vm.py:539-541`): the parsed
components become the wall-clock value; an explicit offset, when present, is
retained as the value's `tzinfo` (the result is then aware, not naive). -/
def fromisoformatDT (iso : Iso8601) : PyDateTime :=
  { seconds := 86400 * daysFromCivil iso.year iso.month iso.day
      + 3600 * iso.hour + 60 * iso.minute + iso.second,
    utcoffsetMinutes := iso.utcoffsetMinutes }

/-- The smallest value a Python `datetime` can hold, as naive seconds since
the epoch: `datetime.min`, 0001-01-01T00:00:00. -/
def minDatetimeSeconds : Int := 86400 * daysFromCivil 1 1 1

/-- The largest whole-second value a Python `datetime` can hold, as naive
seconds since the epoch: `datetime.max` truncated to seconds,
9999-12-31T23:59:59. -/
def maxDatetimeSeconds : Int := 86400 * daysFromCivil 9999 12 31 + 86399

/-- `datetime.datetime.fromtimestamp` (`cluster_vm.py:543-545`): the argument
is seconds since the epoch; the result is the naive local civil time, i.e.
the UTC wall clock shifted by the local offset.  When the resulting civil
time falls outside the years 1..9999 the call raises (year-out-of-range
ValueError), modelled as `none`. -/
def fromtimestampDT (env : Env) (p : Int) : Option PyDateTime :=
  let s := p + 60 * env.tzOffsetMinutes
  if minDatetimeSeconds ≤ s ∧ s ≤ maxDatetimeSeconds then
    some { seconds := s, utcoffsetMinutes := none }
  else none

/-- The `commands_list` constant (`cluster_vm.py:347-364`). -/
def commands_list : List String :=
  ["create", "remove", "start", "stop", "list_vms", "enable", "disable",
   "status", "clone", "create_snapshot", "remove_snapshot", "list_snapshots",
   "rollback_snapshot", "purge_image", "list_metadata", "get_metadata"]

/-- `vm_name_command_list = commands_list.copy(); remove("list_vms")`
(`cluster_vm.py:451-452`). -/
def vm_name_command_list : List String :=
  commands_list.erase "list_vms"

/-- Python truthiness test `if not value` on an optional string parameter:
true for an absent value and for the empty string. -/
def falsyStr : Option String → Bool
  | none => true
  | some s => s = ""

/-- Presence (non-`None`-ness) of a string parameter by its spec name, as the
library's `required_if` handling reads it.  Only the field names that occur
in the `required` table are consulted. -/
def fieldPresent (args : Request) (f : String) : Bool :=
  if f = "name" then args.name.isSome
  else if f = "xml" then args.xml.isSome
  else if f = "system_image" then args.system_image.isSome
  else if f = "src_name" then args.src_name.isSome
  else if f = "metadata_name" then args.metadata_name.isSome
  else if f = "snapshot_name" then args.snapshot_name.isSome
  else true

/-- The `required` table handed to the constructor as `required_if`
(`cluster_vm.py:406-422`); every rule keys on the `command` parameter. -/
def requiredTable : List (String × List String) :=
  [("create", ["name", "xml", "system_image"]),
   ("clone", ["name", "src_name"]),
   ("remove", ["name"]),
   ("start", ["name"]),
   ("stop", ["name"]),
   ("status", ["name"]),
   ("enable", ["name"]),
   ("disable", ["name"]),
   ("list_metadata", ["name"]),
   ("get_metadata", ["name", "metadata_name"]),
   ("purge_image", ["name"]),
   ("create_snapshot", ["name", "snapshot_name"]),
   ("remove_snapshot", ["name", "snapshot_name"]),
   ("rollback_snapshot", ["name", "snapshot_name"]),
   ("list_snapshots", ["name"])]

/-- The library's `required_if` pass over the table: for the rule matching
the selected command, every listed parameter must be present. -/
def requiredIfFind (args : Request) :
    List (String × List String) → Option ModuleError
  | [] => none
  | (val, reqs) :: rest =>
      if args.command = val then
        match reqs.find? (fun f => !(fieldPresent args f)) with
        | some f => some (.missingParam f args.command)
        | none => requiredIfFind args rest
      else requiredIfFind args rest

/-- The parameter validation the `AnsibleModule` constructor performs
(`cluster_vm.py:423-428`), in the order the library applies it:
`mutually_exclusive` for `purge_date`/`purge_number`, then the required-ness
and `choices` check of `command`, then `required_if`. -/
def constructorCheck (args : Request) : Option ModuleError :=
  if args.purge_date.isSome && args.purge_number.isSome then
    some .mutuallyExclusive
  else if !(commands_list.contains args.command) then
    some (.invalidChoice args.command)
  else
    requiredIfFind args requiredTable

/-- The inner helper `check_parameters` (`cluster_vm.py:368-376`): when the
selected command is in the given list, every listed parameter must be truthy
(Python `if not value`); the first falsy one is reported with the command. -/
def check_parameters (command : String)
    (parameters : List (String × Option String))
    (cmds : List String) : Option ModuleError :=
  if cmds.contains command then
    match parameters.find? (fun p => falsyStr p.2) with
    | some p => some (.missingParam p.1 command)
    | none => none
  else none

/-- The five `check_parameters` calls of `run_module`
(`cluster_vm.py:453-462`), in source order; the first failure wins. -/
def checkParametersPhase (args : Request) : Option ModuleError :=
  (check_parameters args.command [("name", args.name)] vm_name_command_list)
  <|> (check_parameters args.command
        [("system_image", args.system_image), ("vm_config", args.xml)]
        ["create"])
  <|> (check_parameters args.command [("src_name", args.src_name)] ["clone"])
  <|> (check_parameters args.command [("metadata_name", args.metadata_name)]
        ["get_metadata"])
  <|> (check_parameters args.command [("snapshot_name", args.snapshot_name)]
        ["create_snapshot", "remove_snapshot", "rollback_snapshot"])

/-- The purge-date resolution inside the `purge_image` branch
(`cluster_vm.py:510-545`), with the source's operator precedence: first the
date/time-completeness check, then the cross-encoding exclusivity check,
then the `date` / `iso_8601` / `posix` chain.  An empty or irrelevant
mapping resolves to `none` (Python: an empty dict is falsy, and a dict
without any of the four keys falls through every branch). -/
def resolvePurgeDate (env : Env) (opd : Option PurgeDate) :
    Except ModuleError (Option PyDateTime) :=
  match opd with
  | none => .ok none
  | some pd =>
      if (pd.date.isSome && !pd.time.isSome)
          || (pd.time.isSome && !pd.date.isSome) then
        .error .purgeDateIncomplete
      else if (pd.date.isSome && (pd.posix.isSome || pd.iso_8601.isSome))
          || (pd.posix.isSome && pd.iso_8601.isSome) then
        .error .purgeDateAmbiguous
      else
        match pd.date, pd.time with
        | some d, some t => .ok (some (combineDateTime d t))
        | _, _ =>
            match pd.iso_8601 with
            | some iso => .ok (some (fromisoformatDT iso))
            | none =>
                match pd.posix with
                | some p =>
                    match fromtimestampDT env p with
                    | some dt => .ok (some dt)
                    | none => .error .valueError
                | none => .ok none

/-- The `if/elif` dispatch of `run_module` (`cluster_vm.py:463-564`), in
source order, recording each capability call with the arguments the source
passes (note: `stop` passes only the name, `clone` receives `src_name`
first, and the second `status` branch of the source is unreachable). -/
def dispatch (env : Env) (args : Request) :
    Except ModuleError Output × List CapCall :=
  let c := args.command
  if c = "list_vms" then
    (.ok { emptyOutput with list_vms := some env.list_vms_ret }, [.list_vms])
  else if c = "create" then
    if !(env.isFile (args.system_image.getD "")) then
      (.error .imageNotFound, [])
    else
      (.ok emptyOutput,
       [.create args.name args.xml args.system_image args.force args.enable
          args.metadata args.preferred_host args.pinned_host])
  else if c = "clone" then
    (.ok emptyOutput,
     [.clone args.src_name args.name args.xml args.force args.enable
        args.metadata args.preferred_host args.pinned_host
        args.clear_constraint])
  else if c = "remove" then
    (.ok emptyOutput, [.remove args.name])
  else if c = "start" then
    (.ok emptyOutput, [.start args.name])
  else if c = "stop" then
    (.ok emptyOutput, [.stop args.name])
  else if c = "disable" then
    (.ok emptyOutput, [.disable_vm args.name])
  else if c = "status" then
    (.ok { emptyOutput with status := some env.status_ret },
     [.status args.name])
  else if c = "enable" then
    (.ok emptyOutput, [.enable_vm args.name])
  else if c = "create_snapshot" then
    (.ok emptyOutput, [.create_snapshot args.name args.snapshot_name])
  else if c = "purge_image" then
    match resolvePurgeDate env args.purge_date with
    | .error e => (.error e, [])
    | .ok dt =>
        (.ok emptyOutput, [.purge_image args.name dt args.purge_number])
  else if c = "remove_snapshot" then
    (.ok emptyOutput, [.remove_snapshot args.name args.snapshot_name])
  else if c = "list_snapshots" then
    (.ok { emptyOutput with list_snapshot := some env.list_snapshots_ret },
     [.list_snapshots args.name])
  else if c = "rollback_snapshot" then
    (.ok emptyOutput, [.rollback_snapshot args.name args.snapshot_name])
  else if c = "list_metadata" then
    (.ok { emptyOutput with list_metadata := some env.list_metadata_ret },
     [.list_metadata args.name])
  else if c = "get_metadata" then
    (.ok { emptyOutput with metadata_value := some env.metadata_value_ret },
     [.get_metadata args.name args.metadata_name])
  else
    (.error (.unsupportedCommand c), [])

/-- `run_module` (`cluster_vm.py:367-568`): constructor validation, then the
`check_parameters` calls, then the dispatch; the first failure exits with no
capability call recorded. -/
def run_module (env : Env) (args : Request) :
    Except ModuleError Output × List CapCall :=
  match constructorCheck args with
  | some e => (.error e, [])
  | none =>
      match checkParametersPhase args with
      | some e => (.error e, [])
      | none => dispatch env args

/-- A concrete environment for witnesses: UTC locale, no existing files,
fixed capability returns. -/
def envUTC : Env :=
  { isFile := fun _ => false, tzOffsetMinutes := 0,
    list_vms_ret := ["guest0", "guest1"], status_ret := "Started",
    metadata_value_ret := "my metadata value",
    list_metadata_ret := ["name", "xml"],
    list_snapshots_ret := ["snapshot1", "snapshot2"] }

/-- An environment in which every path is an existing regular file. -/
def envAllFiles : Env :=
  { envUTC with isFile := fun _ => true }

/-- A request with every optional parameter omitted and the declared
defaults for the boolean parameters. -/
def baseReq : Request :=
  { command := "list_vms", name := none, xml := none, data_disk := none,
    force := false, enable := true, system_image := none, src_name := none,
    metadata_name := none, snapshot_name := none, metadata := none,
    purge_date := none, purge_number := none, preferred_host := none,
    pinned_host := none, clear_constraint := false }

/-- A parameter that is not falsy is present (non-`None`). -/
theorem falsyStr_false_isSome (o : Option String) (h : falsyStr o = false) :
    o.isSome = true := by
  cases o with
  | none => simp [falsyStr] at h
  | some s => rfl

/-- Claim C1: the spec says the resolver interprets `posix` as epoch
milliseconds, so that a `date`+`time` pair and the equivalent posix
millisecond value of the same instant resolve to the same timestamp.  The
code hands the posix value straight to `datetime.datetime.fromtimestamp`,
which takes epoch seconds (UTC locale here).  For the instant
1970-01-02T00:00:00 the `date`+`time` pair resolves to 86400 seconds while
its millisecond encoding 86400000 resolves to 86400000 seconds — one
thousand times too large.  The spec's own scenario value 1611475200000
(milliseconds of 2021-01-24T08:00:00) even leaves the representable
datetime range: fromtimestamp raises its year-out-of-range ValueError, the
generic exception handler fails the module, and no capability call is
made. -/
theorem c1_posix_treated_as_seconds :
    run_module envUTC
        { baseReq with
          command := "purge_image", name := some "guest0",
          purge_date := some ⟨none, none, none, some 86400000⟩ } =
      (.ok emptyOutput,
       [.purge_image (some "guest0") (some ⟨86400000, none⟩) none]) ∧
    run_module envUTC
        { baseReq with
          command := "purge_image", name := some "guest0",
          purge_date :=
            some ⟨some ⟨1970, 1, 2⟩, some ⟨0, 0⟩, none, none⟩ } =
      (.ok emptyOutput,
       [.purge_image (some "guest0") (some ⟨86400, none⟩) none]) ∧
    (86400000 : Int) ≠ 86400 ∧
    run_module envUTC
        { baseReq with
          command := "purge_image", name := some "guest0",
          purge_date := some ⟨none, none, none, some 1611475200000⟩ } =
      (.error .valueError, []) :=
  ⟨rfl, rfl, by decide, rfl⟩

/-- Claim C2: the spec requires `name`, `src_name` and `config` (xml) for
`clone`, with a ValidationError naming any missing one.  The code's
`required_if` row for clone lists only `name` and `src_name`, and no
`check_parameters` call covers xml for clone: a clone request without xml
passes validation and the capability is invoked with `base_xml = None`. -/
theorem c2_clone_without_config_accepted :
    run_module envUTC
        { baseReq with
          command := "clone", name := some "guest1",
          src_name := some "guest0" } =
      (.ok emptyOutput,
       [.clone (some "guest0") (some "guest1") none false true none none
          none false]) :=
  rfl

/-- Claim C6: the spec says an explicit time-zone offset in `iso_8601` is
discarded, yielding a naive timestamp.  `datetime.datetime.fromisoformat`
retains the offset: resolving 2021-01-24T08:00:00+02:00 passes the
capability an aware timestamp still carrying the +02:00 offset. -/
theorem c6_iso_offset_retained :
    run_module envUTC
        { baseReq with
          command := "purge_image", name := some "guest0",
          purge_date :=
            some ⟨none, none, some ⟨2021, 1, 24, 8, 0, 0, some 120⟩,
              none⟩ } =
      (.ok emptyOutput,
       [.purge_image (some "guest0") (some ⟨1611475200, some 120⟩) none]) ∧
    (PyDateTime.mk 1611475200 (some 120)).utcoffsetMinutes ≠ none :=
  ⟨rfl, by decide⟩

/-- Claim C7: the spec says a validated stop request invokes the capability
as `stop(name, force)`.  The source calls `vm_manager.stop(vm_name)` only:
the request's force flag has no influence at all on the outcome of a stop
request, so it is not passed through. -/
theorem c7_stop_drops_force (env : Env) (args : Request) (b c : Bool)
    (hc : args.command = "stop") :
    run_module env { args with force := b } =
      run_module env { args with force := c } := by
  cases args
  subst hc
  rfl

/-- Claim C7 witness: a forced and an unforced stop of guest0 produce the
identical outcome. -/
theorem c7_stop_drops_force_witness :
    run_module envUTC
        { baseReq with
          command := "stop", name := some "guest0", force := true } =
      run_module envUTC
        { baseReq with
          command := "stop", name := some "guest0", force := false } :=
  c7_stop_drops_force envUTC
    { baseReq with command := "stop", name := some "guest0" } true false rfl

/-- Claim C10: the undocumented `data_disk` parameter is declared but never
read by `run_module`: two requests differing only in `data_disk` validate
identically, invoke the same capability operation with the same arguments,
and produce the same result. -/
theorem c10_data_disk_noninterference (env : Env) (args : Request)
    (d : Option String) :
    run_module env { args with data_disk := d } = run_module env args := by
  cases args
  rfl

/-- Claim C4: supplying both `purge_date` and `purge_number` in one request
yields the mutual-exclusion error for every command, before any capability
operation is invoked: the constructor's `mutually_exclusive` check fires
first and the recorded capability trace is empty. -/
theorem c4_purge_selectors_mutually_exclusive (env : Env) (args : Request)
    (hd : args.purge_date.isSome = true)
    (hn : args.purge_number.isSome = true) :
    run_module env args = (.error .mutuallyExclusive, []) := by
  unfold run_module constructorCheck
  simp [hd, hn]

/-- Claim C4 witness: the spec's own example request (purge_image of guest0
with a posix purge_spec and purge_number 5) is rejected with the
mutual-exclusion error and no capability call. -/
theorem c4_purge_selectors_mutually_exclusive_witness :
    run_module envUTC
        { baseReq with
          command := "purge_image", name := some "guest0",
          purge_date := some ⟨none, none, none, some 1611475200000⟩,
          purge_number := some 5 } =
      (.error .mutuallyExclusive, []) :=
  c4_purge_selectors_mutually_exclusive envUTC
    { baseReq with
      command := "purge_image", name := some "guest0",
      purge_date := some ⟨none, none, none, some 1611475200000⟩,
      purge_number := some 5 } rfl rfl

/-- Claim C3 counterexample: the claim says an incomplete purge_spec (date
without time) is rejected for every command, but the completeness check
lives inside the `purge_image` dispatch branch only: a `start` request
carrying a date-only purge_date validates and starts the VM. -/
theorem c3_counterexample_start_with_incomplete_spec :
    run_module envUTC
        { baseReq with
          command := "start", name := some "guest0",
          purge_date := some ⟨some ⟨2021, 1, 24⟩, none, none, none⟩ } =
      (.ok emptyOutput, [.start (some "guest0")]) :=
  rfl

/-- Claim C3 amended: for the `purge_image` command, supplying a purge_spec
with `date` present but `time` absent, or `time` present but `date` absent,
yields a mutual-exclusion error (one of the two purge-related rejection
messages, depending on whether `purge_number` is also set) and no capability
operation is invoked; other commands never examine the purge_spec. -/
theorem c3_amended_purge_image_incomplete_spec (env : Env) (args : Request)
    (pd : PurgeDate) (hc : args.command = "purge_image")
    (hn : falsyStr args.name = false)
    (hpd : args.purge_date = some pd)
    (hone : ((pd.date.isSome && !pd.time.isSome)
        || (pd.time.isSome && !pd.date.isSome)) = true) :
    (run_module env args).2 = [] ∧
      ∃ e, (run_module env args).1 = .error e ∧
        e.isMutualExclusion = true := by
  have hn2 := falsyStr_false_isSome _ hn
  cases hnum : args.purge_number with
  | some k =>
      have hrun : run_module env args = (.error .mutuallyExclusive, []) := by
        unfold run_module constructorCheck
        simp [hpd, hnum]
      rw [hrun]
      exact ⟨rfl, .mutuallyExclusive, rfl, rfl⟩
  | none =>
      have hone2 : pd.date.isSome = true ∧ pd.time = none ∨
          pd.time.isSome = true ∧ pd.date = none := by
        cases hdt : pd.date <;> cases htm : pd.time <;> simp_all
      have hrun : run_module env args = (.error .purgeDateIncomplete, []) := by
        unfold run_module constructorCheck checkParametersPhase dispatch
        simp [hpd, hnum, hc, requiredIfFind, requiredTable, fieldPresent,
              hn2, check_parameters, vm_name_command_list, commands_list,
              hn, resolvePurgeDate, hone2]
      rw [hrun]
      exact ⟨rfl, .purgeDateIncomplete, rfl, rfl⟩

/-- Claim C3 amended witness: a purge_image request for guest0 whose
purge_date carries only the date key is rejected with a mutual-exclusion
error and no capability call. -/
theorem c3_amended_purge_image_incomplete_spec_witness :
    (run_module envUTC
        { baseReq with
          command := "purge_image", name := some "guest0",
          purge_date :=
            some ⟨some ⟨2021, 1, 24⟩, none, none, none⟩ }).2 = [] ∧
      ∃ e, (run_module envUTC
          { baseReq with
            command := "purge_image", name := some "guest0",
            purge_date :=
              some ⟨some ⟨2021, 1, 24⟩, none, none, none⟩ }).1 =
          .error e ∧ e.isMutualExclusion = true :=
  c3_amended_purge_image_incomplete_spec envUTC
    { baseReq with
      command := "purge_image", name := some "guest0",
      purge_date := some ⟨some ⟨2021, 1, 24⟩, none, none, none⟩ }
    ⟨some ⟨2021, 1, 24⟩, none, none, none⟩ rfl rfl rfl rfl

/-- The required-field validation taken as a whole: the constructor's
`required_if` pass (presence) followed by the in-module `check_parameters`
pass (non-emptiness), in the order the source runs them. -/
def requiredFieldError (args : Request) : Option ModuleError :=
  requiredIfFind args requiredTable <|> checkParametersPhase args

/-- A purge_image request that is simultaneously missing its required
`name` and supplying both purge selectors. -/
def reqBothFailures : Request :=
  { baseReq with
    command := "purge_image",
    purge_date := some ⟨none, none, none, some 1611475200000⟩,
    purge_number := some 5 }

/-- Claim C5 counterexample: the claim puts the per-command required-field
check first, but the mutual-exclusion check runs during module
construction, before every required-field check: a purge_image request
that both misses `name` and supplies the two purge selectors reports the
mutual-exclusion error, not an error naming the missing field. -/
theorem c5_counterexample_mutex_wins_over_required :
    fieldPresent reqBothFailures "name" = false ∧
    run_module envUTC reqBothFailures = (.error .mutuallyExclusive, []) ∧
    ModuleError.mutuallyExclusive ≠
      ModuleError.missingParam "name" "purge_image" :=
  ⟨rfl, rfl, by decide⟩

/-- Claim C5 amended: validation checks run in a fixed order, with the
purge_spec/purge_number mutual-exclusion check first (it happens at module
construction), then the per-command required-field checks (the required_if
presence pass, then the non-emptiness pass), then command-specific
structural checks (the system_image existence check for create); the first
failing check determines the reported error and no capability call is
made. -/
theorem c5_amended_validation_order (env : Env) (args : Request) :
    ((args.purge_date.isSome && args.purge_number.isSome) = true →
      run_module env args = (.error .mutuallyExclusive, [])) ∧
    (∀ e, (args.purge_date.isSome && args.purge_number.isSome) = false →
      commands_list.contains args.command = true →
      requiredFieldError args = some e →
      run_module env args = (.error e, [])) ∧
    ((args.purge_date.isSome && args.purge_number.isSome) = false →
      commands_list.contains args.command = true →
      requiredFieldError args = none →
      args.command = "create" →
      env.isFile (args.system_image.getD "") = false →
      run_module env args = (.error .imageNotFound, [])) := by
  refine ⟨?_, ?_, ?_⟩
  · intro hmx
    unfold run_module constructorCheck
    simp [hmx]
  · intro e hmx hin hreq
    have hin2 : args.command ∈ commands_list := by simpa using hin
    unfold requiredFieldError at hreq
    unfold run_module constructorCheck
    cases hri : requiredIfFind args requiredTable with
    | some e2 =>
        rw [hri] at hreq
        simp at hreq
        subst hreq
        simp [hmx, hin2, hri]
    | none =>
        rw [hri] at hreq
        simp at hreq
        simp [hmx, hin2, hri, hreq]
  · intro hmx hin hreq hc hf
    have hin2 : args.command ∈ commands_list := by simpa using hin
    unfold requiredFieldError at hreq
    cases hri : requiredIfFind args requiredTable with
    | some e2 => rw [hri] at hreq; simp at hreq
    | none =>
        rw [hri] at hreq
        simp at hreq
        unfold run_module constructorCheck dispatch
        simp [hmx, hin2, hri, hreq, hc, hf, commands_list]

/-- Claim C5 amended witness: a start request with no name at all is
rejected with the error naming the missing `name` field. -/
theorem c5_amended_validation_order_witness :
    run_module envUTC { baseReq with command := "start" } =
      (.error (.missingParam "name" "start"), []) :=
  (c5_amended_validation_order envUTC
      { baseReq with command := "start" }).2.1
    (.missingParam "name" "start") rfl rfl rfl

/-- Claim C8: a create request whose system_image path is not an existing
regular file fails with the image-not-found error and no capability
operation is invoked, whatever the values of the remaining (individually
valid) fields. -/
theorem c8_create_missing_image (env : Env) (args : Request)
    (hc : args.command = "create")
    (hmx : (args.purge_date.isSome && args.purge_number.isSome) = false)
    (hn : falsyStr args.name = false)
    (hx : falsyStr args.xml = false)
    (hsi : falsyStr args.system_image = false)
    (hf : env.isFile (args.system_image.getD "") = false) :
    run_module env args = (.error .imageNotFound, []) := by
  have hn2 := falsyStr_false_isSome _ hn
  have hx2 := falsyStr_false_isSome _ hx
  have hsi2 := falsyStr_false_isSome _ hsi
  unfold run_module constructorCheck checkParametersPhase dispatch
  simp [hc, hmx, requiredIfFind, requiredTable, fieldPresent, hn2, hx2,
        hsi2, check_parameters, vm_name_command_list, commands_list, hn,
        hx, hsi, hf]

/-- Claim C8 witness: the spec's end-to-end scenario 2 — creating guest0
from /tmp/x.qcow2 in a world where no file exists — is rejected with
image-not-found and an empty capability trace. -/
theorem c8_create_missing_image_witness :
    run_module envUTC
        { baseReq with
          command := "create", name := some "guest0", xml := some "<xml/>",
          system_image := some "/tmp/x.qcow2" } =
      (.error .imageNotFound, []) :=
  c8_create_missing_image envUTC
    { baseReq with
      command := "create", name := some "guest0", xml := some "<xml/>",
      system_image := some "/tmp/x.qcow2" } rfl rfl rfl rfl rfl rfl

/-- Claim C9: every successful invocation carries at most one of the five
data keys, and exactly the one belonging to the invoked command
(`list_vms`, `status`, `metadata_value`, `list_metadata`, `list_snapshot`);
every mutating command produces the empty result. -/
theorem c9_output_keys (env : Env) (args : Request) (out : Output)
    (tr : List CapCall) (h : run_module env args = (.ok out, tr)) :
    (out.list_vms.isSome = true ↔ args.command = "list_vms") ∧
    (out.status.isSome = true ↔ args.command = "status") ∧
    (out.metadata_value.isSome = true ↔ args.command = "get_metadata") ∧
    (out.list_metadata.isSome = true ↔ args.command = "list_metadata") ∧
    (out.list_snapshot.isSome = true ↔ args.command = "list_snapshots") := by
  unfold run_module at h
  cases hcc : constructorCheck args with
  | some e => rw [hcc] at h; dsimp only at h; exact absurd h (by simp)
  | none =>
      rw [hcc] at h
      dsimp only at h
      cases hcp : checkParametersPhase args with
      | some e => rw [hcp] at h; dsimp only at h; exact absurd h (by simp)
      | none =>
          rw [hcp] at h
          dsimp only at h
          unfold dispatch at h
          dsimp only at h
          by_cases h1 : args.command = "list_vms"
          · rw [if_pos h1] at h
            simp only [Prod.mk.injEq, Except.ok.injEq] at h
            obtain ⟨hO, hT⟩ := h
            subst hO
            simp [emptyOutput, h1]
          rw [if_neg h1] at h
          by_cases h2 : args.command = "create"
          · rw [if_pos h2] at h
            by_cases hf : (!(env.isFile (args.system_image.getD ""))) = true
            · rw [if_pos hf] at h
              exact absurd h (by simp)
            · rw [if_neg hf] at h
              simp only [Prod.mk.injEq, Except.ok.injEq] at h
              obtain ⟨hO, hT⟩ := h
              subst hO
              simp [emptyOutput, h2]
          rw [if_neg h2] at h
          by_cases h3 : args.command = "clone"
          · rw [if_pos h3] at h
            simp only [Prod.mk.injEq, Except.ok.injEq] at h
            obtain ⟨hO, hT⟩ := h
            subst hO
            simp [emptyOutput, h3]
          rw [if_neg h3] at h
          by_cases h4 : args.command = "remove"
          · rw [if_pos h4] at h
            simp only [Prod.mk.injEq, Except.ok.injEq] at h
            obtain ⟨hO, hT⟩ := h
            subst hO
            simp [emptyOutput, h4]
          rw [if_neg h4] at h
          by_cases h5 : args.command = "start"
          · rw [if_pos h5] at h
            simp only [Prod.mk.injEq, Except.ok.injEq] at h
            obtain ⟨hO, hT⟩ := h
            subst hO
            simp [emptyOutput, h5]
          rw [if_neg h5] at h
          by_cases h6 : args.command = "stop"
          · rw [if_pos h6] at h
            simp only [Prod.mk.injEq, Except.ok.injEq] at h
            obtain ⟨hO, hT⟩ := h
            subst hO
            simp [emptyOutput, h6]
          rw [if_neg h6] at h
          by_cases h7 : args.command = "disable"
          · rw [if_pos h7] at h
            simp only [Prod.mk.injEq, Except.ok.injEq] at h
            obtain ⟨hO, hT⟩ := h
            subst hO
            simp [emptyOutput, h7]
          rw [if_neg h7] at h
          by_cases h8 : args.command = "status"
          · rw [if_pos h8] at h
            simp only [Prod.mk.injEq, Except.ok.injEq] at h
            obtain ⟨hO, hT⟩ := h
            subst hO
            simp [emptyOutput, h8]
          rw [if_neg h8] at h
          by_cases h9 : args.command = "enable"
          · rw [if_pos h9] at h
            simp only [Prod.mk.injEq, Except.ok.injEq] at h
            obtain ⟨hO, hT⟩ := h
            subst hO
            simp [emptyOutput, h9]
          rw [if_neg h9] at h
          by_cases h10 : args.command = "create_snapshot"
          · rw [if_pos h10] at h
            simp only [Prod.mk.injEq, Except.ok.injEq] at h
            obtain ⟨hO, hT⟩ := h
            subst hO
            simp [emptyOutput, h10]
          rw [if_neg h10] at h
          by_cases h11 : args.command = "purge_image"
          · rw [if_pos h11] at h
            cases hr : resolvePurgeDate env args.purge_date with
            | error e =>
                rw [hr] at h
                exact absurd h (by simp)
            | ok dt =>
                rw [hr] at h
                dsimp only at h
                simp only [Prod.mk.injEq, Except.ok.injEq] at h
                obtain ⟨hO, hT⟩ := h
                subst hO
                simp [emptyOutput, h11]
          rw [if_neg h11] at h
          by_cases h12 : args.command = "remove_snapshot"
          · rw [if_pos h12] at h
            simp only [Prod.mk.injEq, Except.ok.injEq] at h
            obtain ⟨hO, hT⟩ := h
            subst hO
            simp [emptyOutput, h12]
          rw [if_neg h12] at h
          by_cases h13 : args.command = "list_snapshots"
          · rw [if_pos h13] at h
            simp only [Prod.mk.injEq, Except.ok.injEq] at h
            obtain ⟨hO, hT⟩ := h
            subst hO
            simp [emptyOutput, h13]
          rw [if_neg h13] at h
          by_cases h14 : args.command = "rollback_snapshot"
          · rw [if_pos h14] at h
            simp only [Prod.mk.injEq, Except.ok.injEq] at h
            obtain ⟨hO, hT⟩ := h
            subst hO
            simp [emptyOutput, h14]
          rw [if_neg h14] at h
          by_cases h15 : args.command = "list_metadata"
          · rw [if_pos h15] at h
            simp only [Prod.mk.injEq, Except.ok.injEq] at h
            obtain ⟨hO, hT⟩ := h
            subst hO
            simp [emptyOutput, h15]
          rw [if_neg h15] at h
          by_cases h16 : args.command = "get_metadata"
          · rw [if_pos h16] at h
            simp only [Prod.mk.injEq, Except.ok.injEq] at h
            obtain ⟨hO, hT⟩ := h
            subst hO
            simp [emptyOutput, h16]
          rw [if_neg h16] at h
          exact absurd h (by simp)

/-- Claim C9 witness: the spec's end-to-end scenario 1 — a list_vms request
against a capability returning guest0 and guest1 — yields an output whose
only populated key is list_vms. -/
theorem c9_output_keys_witness :
    (({ emptyOutput with list_vms := some ["guest0", "guest1"] } :
        Output).list_vms.isSome = true ↔ baseReq.command = "list_vms") ∧
    (({ emptyOutput with list_vms := some ["guest0", "guest1"] } :
        Output).status.isSome = true ↔ baseReq.command = "status") ∧
    (({ emptyOutput with list_vms := some ["guest0", "guest1"] } :
        Output).metadata_value.isSome = true ↔
      baseReq.command = "get_metadata") ∧
    (({ emptyOutput with list_vms := some ["guest0", "guest1"] } :
        Output).list_metadata.isSome = true ↔
      baseReq.command = "list_metadata") ∧
    (({ emptyOutput with list_vms := some ["guest0", "guest1"] } :
        Output).list_snapshot.isSome = true ↔
      baseReq.command = "list_snapshots") :=
  c9_output_keys envUTC baseReq
    { emptyOutput with list_vms := some ["guest0", "guest1"] }
    [.list_vms] rfl
